import Mathlib

/-!
Shallow embedding of the BLK client core: the session lifecycle coordinator
(src/src/blk/game/client/clientgame.js) and the FPS command/controller
execution contract (src/src/blk/sim/controllers/fpscontroller.js).

Pure data is embedded as Lean structures; effectful methods are embedded as
functions from state to state together with an emitted event trace; a thrown
JavaScript error is an explicit `Option JsError` component of the result.
Quaternions are only ever copied by this code (never computed with), so they
are embedded as an opaque record of four integers.
-/

namespace Blk

/-- A JavaScript runtime error.  Evaluating an identifier that is bound
nowhere in the scope chain throws a ReferenceError naming the identifier. -/
inductive JsError where
  | referenceError (ident : String)
deriving DecidableEq, Repr

/-- Quaternion values.  The embedded code only copies quaternions
(command.getQuaternion writes into a scratch register, setRotation stores the
value), so the carrier is an opaque four-component record; no arithmetic. -/
structure Quat where
  x : Int
  y : Int
  z : Int
  w : Int
deriving DecidableEq, Repr

/-- An input action carried by a player-move command.  Modelled from the
spec: the command data model (the class blk.sim.commands.PlayerMoveCommand is
not part of the given source) carries an ordered list of zero or more
actions; the action payload itself is opaque here. -/
abbrev Action : Type := Nat

/-- Commands consumed by a controller.  The source dispatches with
`command instanceof blk.sim.commands.PlayerMoveCommand`; a player-move
command carries a view quaternion and the action list (see `Action`).  Other
command kinds reach only the base-class handler. -/
inductive Command where
  | playerMove (quat : Quat) (actions : List Action)
  | other
deriving DecidableEq, Repr

/-- State of a held tool.  `heldTool.use(command)` is an external
collaborator call; the embedding records each invocation together with the
command passed as context, in invocation order. -/
structure ToolState where
  uses : List Command
deriving DecidableEq, Repr

/-- State of the bound target entity of the controller: its spatial rotation
(gf.sim.SpatialEntityState.setRotation replaces it) and the currently held
tool, if any (target.getHeldTool). -/
structure TargetState where
  rotation : Quat
  heldTool : Option ToolState
deriving DecidableEq, Repr

/-- Execution state seen by FpsController.executeCommand: the bound target
(this.getTarget(), null when unbound) and the class-level scratch quaternion
blk.sim.controllers.FpsController.tmpQuat_, which is static mutable state
shared across all calls rather than part of any entity. -/
structure SimState where
  target : Option TargetState
  scratch : Quat
deriving DecidableEq, Repr

/-- JavaScript truthiness of the `actions` array field.  In JavaScript an
array object is truthy even when it is empty, so the guard
`if (command.actions)` in the source succeeds for every action list. -/
def jsArrayTruthy (_actions : List Action) : Bool := true

/-- blk.sim.controllers.FpsController.prototype.executeCommand
(fpscontroller.js lines 63-92).  The base-class call
`goog.base(this, executeCommand, command)` is modelled from the spec as a
no-op (the base class is not part of the given source and the spec assigns
all mutation of this contract to the steps visible here).  If the target is
unbound the method returns at once.  For a PlayerMoveCommand it copies the
command quaternion into the scratch register, sets the target rotation from
the scratch, and then, under the guard `if (command.actions)`, invokes
`heldTool.use(command)` exactly once when a tool is held.  Note the source
never iterates over the action list: the local variable `actions` is
assigned and not used again. -/
def executeCommand (s : SimState) (command : Command) : SimState :=
  match s.target with
  | none => s
  | some target =>
    match command with
    | .playerMove quat actions =>
      -- var q = tmpQuat_; command.getQuaternion(q); targetState.setRotation(q)
      let q := quat
      let target := { target with rotation := q }
      -- var actions = command.actions; if (command.actions) { ... }
      let target :=
        if jsArrayTruthy actions then
          match target.heldTool with
          | some heldTool =>
            { target with heldTool := some { heldTool with uses := heldTool.uses ++ [command] } }
          | none => target
        else target
      { target := some target, scratch := q }
    | .other => s

/-- Applies an ordered sequence of commands through the controller. -/
def executeCommands (s : SimState) (commands : List Command) : SimState :=
  commands.foldl executeCommand s

/-- The record of tool-use invocations visible in a state (empty when no
target is bound or no tool is held). -/
def toolUses (s : SimState) : List Command :=
  match s.target with
  | some target =>
    match target.heldTool with
    | some heldTool => heldTool.uses
    | none => []
  | none => []

/-! ## Session lifecycle coordinator (clientgame.js) -/

/-- Outcome of one asynchronous setup step (a goog.async.Deferred resolving
with success or with an error argument, here a string). -/
inductive StepResult where
  | ok
  | fail (arg : String)
deriving DecidableEq, Repr

/-- Observable lifecycle events emitted by the coordinator, in program
order. -/
inductive LifeEvent where
  | setSplashScreen
  | renderStateSetupInvoked
  | popAllScreens
  | startTicking
  | showErrorPopup (location : String) (message : String) (arg : String)
  | connectToHostRequested (host : String)
  | gotoMainMenuScreen
deriving DecidableEq, Repr

/-- blk.game.client.ClientGame.prototype.setupFailed_ (lines 337-345): pop
all screens (clearing the splash), show the setup error popup, and do
nothing further. -/
def setupFailed (message : String) (arg : String) : List LifeEvent :=
  [.popAllScreens, .showErrorPopup "setup" message arg]

/-- blk.game.client.ClientGame.prototype.setupSucceeded_ (lines 312-328):
pop all screens, start ticking, then either connect to the launch-option
host or go to the main menu. -/
def setupSucceeded (launchHost : Option String) : List LifeEvent :=
  [.popAllScreens, .startTicking] ++
    match launchHost with
    | some host => [.connectToHostRequested host]
    | none => [.gotoMainMenuScreen]

/-- blk.game.client.ClientGame.prototype.beginSetup_ (lines 276-305), given
the eventual resolutions of the two setup deferreds.  The splash screen is
shown, then graphicsContext_.setup runs (step 1): its failure callback calls
setupFailed_ directly; its success callback is the only place
renderState_.setup (step 2) is started, whose callbacks in turn call
setupSucceeded_ or setupFailed_.  The `step2` argument is consulted only
inside the success branch of `step1`, mirroring that the second deferred is
only ever constructed inside the first success callback. -/
def beginSetup (launchHost : Option String) (step1 step2 : StepResult) :
    List LifeEvent :=
  [.setSplashScreen] ++
    match step1 with
    | .fail arg => setupFailed "Unable to create the graphics context" arg
    | .ok =>
      [.renderStateSetupInvoked] ++
        match step2 with
        | .fail arg => setupFailed "Unable to setup graphics resources" arg
        | .ok => setupSucceeded launchHost

/-- User settings object (blk.game.client.UserSettings), as read by this
file: mouse sensitivity, mouse-lock preference, music and sound-effect
mutes, and the user name. -/
structure Settings where
  mouseSensitivity : Int
  mouseLock : Bool
  musicMuted : Bool
  soundFxMuted : Bool
  userName : String
deriving DecidableEq, Repr

/-- Client game state touched by the embedded methods: the in-game flag, the
display fullscreen flag, the input-manager mouse state (applied sensitivity,
lock-on-focus, locked, supportsLocking), whether input is enabled, the music
controller mute, a counter of click sounds played, and the stored user
settings (this.settings). -/
structure GameState where
  inGame : Bool
  fullScreen : Bool
  mouseSensitivity : Int
  mouseLockOnFocus : Bool
  mouseLocked : Bool
  mouseSupportsLocking : Bool
  inputEnabled : Bool
  musicMuted : Bool
  clicksPlayed : Nat
  settings : Settings
deriving DecidableEq, Repr

/-- blk.game.client.ClientGame.prototype.isInGame (lines 237-239). -/
def isInGame (g : GameState) : Bool := g.inGame

/-- blk.game.client.ClientGame.prototype.playClick (lines 367-371): play the
click sound unless sound effects are muted. -/
def playClick (g : GameState) : GameState :=
  if !g.settings.soundFxMuted then { g with clicksPlayed := g.clicksPlayed + 1 }
  else g

/-- blk.game.client.ClientGame.prototype.refreshSettings_ (lines 246-266):
push the stored user settings into the input manager (sensitivity, lock on
focus, lock or unlock the mouse) and the music controller (mute). -/
def refreshSettings (g : GameState) : GameState :=
  let g := { g with
    mouseSensitivity := g.settings.mouseSensitivity
    mouseLockOnFocus := g.settings.mouseLock }
  let g :=
    if g.inGame && g.settings.mouseLock then { g with mouseLocked := true }
    else { g with mouseLocked := false }
  { g with musicMuted := g.settings.musicMuted }

/-- blk.game.client.ClientGame.prototype.toggleFullscreen (lines 378-392):
play the click, toggle the display fullscreen flag, and lock the mouse when
transitioning into fullscreen while in game with locking supported and the
mouse-lock setting on. -/
def toggleFullscreen (g : GameState) : GameState :=
  let g := playClick g
  let goingFullScreen := !g.fullScreen
  let g := { g with fullScreen := !g.fullScreen }
  if g.inGame && goingFullScreen && g.mouseSupportsLocking &&
      g.settings.mouseLock then
    { g with mouseLocked := true }
  else g

/-- blk.game.client.ClientGame.prototype.prePopup_ (lines 449-456): play the
click and disable input when in game. -/
def prePopup (g : GameState) : GameState :=
  let g := playClick g
  if isInGame g then { g with inputEnabled := false } else g

/-- blk.game.client.ClientGame.prototype.postPopup_ (lines 463-470): play
the click and re-enable input when in game. -/
def postPopup (g : GameState) : GameState :=
  let g := playClick g
  if isInGame g then { g with inputEnabled := true } else g

/-- The settings-popup completion callback (showSettingsPopup, lines
483-490).  The callback parameter is named `buttonid`, but the condition
reads `buttonId`, an identifier bound nowhere in the scope chain, so the
very first statement of the callback throws a ReferenceError: neither
refreshSettings_ nor postPopup_ is reached, for any dialog result. -/
def settingsPopupCallback (g : GameState) (buttonid : String) :
    GameState × Option JsError :=
  -- if (buttonId == "save") { this.refreshSettings_(); } this.postPopup_();
  let _ := buttonid
  (g, some (.referenceError "buttonId"))

/-! ## Connecting to a host (clientgame.js lines 529-708) -/

/-- Splits a character list at the first occurrence of the "://" separator,
returning the characters before it and the characters after it, or none when
the separator does not occur.  `acc` holds the characters already scanned,
in reverse. -/
def splitSchemeAux (acc : List Char) : List Char → Option (List Char × List Char)
  | [] => none
  | c :: rest =>
    if c = ':' then
      match rest with
      | '/' :: '/' :: tail => some (acc.reverse, tail)
      | _ => splitSchemeAux (c :: acc) rest
    else splitSchemeAux (c :: acc) rest

/-- Splits an address at its first "://" separator. -/
def schemeSplit (address : String) : Option (List Char × List Char) :=
  splitSchemeAux [] address.data

/-- Scheme component of an address.  Modelled from the spec: goog.Uri is an
external collaborator, and the spec describes parsing as splitting the
address into scheme + host + port, each possibly empty; the scheme is the
part before the "://" separator, empty when there is no separator. -/
def googUriScheme (address : String) : String :=
  match schemeSplit address with
  | none => ""
  | some (s, _) => String.mk s

/-- Authority of an address: the part after "://" and before the first "/",
as characters.  Modelled from the spec, as for `googUriScheme`. -/
def googUriAuthorityChars (address : String) : List Char :=
  match schemeSplit address with
  | none => []
  | some (_, rest) => rest.takeWhile (fun c => c != '/')

/-- Host (domain) component of an address: the authority up to the ":" that
separates the port.  Modelled from the spec, as for `googUriScheme`. -/
def googUriDomain (address : String) : String :=
  String.mk ((googUriAuthorityChars address).takeWhile (fun c => c != ':'))

/-- Port component of an address: the authority after its ":", empty when
there is none.  Modelled from the spec, as for `googUriScheme`. -/
def googUriPort (address : String) : String :=
  match (googUriAuthorityChars address).dropWhile (fun c => c != ':') with
  | [] => ""
  | _ :: rest => String.mk rest

/-- The terminal outcome an invoked connector would deliver to the connect
deferred (gf.net.connect is an external collaborator). -/
inductive ConnectorOutcome where
  | success
  | failure (reason : String)
deriving DecidableEq, Repr

/-- Observable events emitted during connectToHost, in program order. -/
inductive NetEvent where
  | showConnectingDialog (address : String)
  | deferredErrback (reason : String)
  | invokeRemoteConnector (endpoint : String)
  | invokeLocalConnector
  | cancelConnectingDialog
  | gotoGameScreen
  | showConnectionFailed (reason : String)
deriving DecidableEq, Repr

/-- Result of running a connect attempt: the events emitted before control
returned, and the JavaScript error thrown, if any. -/
structure NetOutcome where
  events : List NetEvent
  err : Option JsError
deriving DecidableEq, Repr

/-- Resolution state of the connect deferred: pending (never called back),
resolved with success, or resolved with an error reason. -/
inductive DeferredState where
  | pending
  | success
  | failure (reason : String)
deriving DecidableEq, Repr

/-- The errback reason for an invalid address (line 544). -/
def invalidAddressMessage (address : String) : String :=
  "Invalid address format: \"" ++ address ++ "\""

/-- The errback reason for an unsupported scheme (line 566). -/
def unsupportedSchemeMessage (scheme : String) : String :=
  "Unsupported scheme \"" ++ scheme ++ "\""

/-- Lines 547-552: prepare the auth token and user info.  The display name
is assigned from gf.net.UserInfo.sanitizeDisplayName(settings.userName), but
the identifier `settings` is bound nowhere in the scope chain of
connectToHost (the constructor stores the user settings as this.settings,
line 69, and no variable or global named `settings` exists), so evaluating
it throws a ReferenceError and nothing after this statement runs. -/
def userInfoPreparation : Except JsError String :=
  .error (.referenceError "settings")

/-- blk.game.client.ClientGame.prototype.connectToHost (lines 529-591),
given the outcome the connector would deliver.  In order: show the
connecting dialog; create the connect deferred; parse the address and
errback with InvalidAddress when scheme, domain, or port is empty (lines
537-545); prepare the user info (lines 547-552) — this throws a
ReferenceError on the unbound identifier `settings`, so the function aborts
here on every call.  The match on `userInfoPreparation` keeps the remainder
of the source embedded in the (unreachable) ok branch: the scheme switch
guarded by deferred.hasFired() (lines 555-569, where
connectToLocalHost_ lines 613-686 has its whole body commented out and so
never resolves the deferred), and the addCallbacks pair (lines 571-590)
that cancels the dialog and then either enters the game screen or shows the
connection-failed dialog once the deferred resolves. -/
def connectToHost (address : String) (connector : ConnectorOutcome) :
    NetOutcome :=
  let events := [NetEvent.showConnectingDialog address]
  let validAddress : Bool :=
    googUriScheme address != "" &&
    googUriDomain address != "" &&
    googUriPort address != ""
  let events :=
    if validAddress then events
    else events ++ [.deferredErrback (invalidAddressMessage address)]
  match userInfoPreparation with
  | .error e => { events := events, err := some e }
  | .ok _displayName =>
    let hasFired := !validAddress
    let dispatchEvents : List NetEvent :=
      if hasFired then []
      else
        match googUriScheme address with
        | "ws" => [.invokeRemoteConnector address]
        | "local" => [.invokeLocalConnector]
        | s => [.deferredErrback (unsupportedSchemeMessage s)]
    let deferredState : DeferredState :=
      if !validAddress then .failure (invalidAddressMessage address)
      else
        match googUriScheme address with
        | "ws" =>
          (match connector with
           | .success => .success
           | .failure r => .failure r)
        | "local" => .pending
        | s => .failure (unsupportedSchemeMessage s)
    let settleEvents : List NetEvent :=
      match deferredState with
      | .pending => []
      | .success => [.cancelConnectingDialog, .gotoGameScreen]
      | .failure r => [.cancelConnectingDialog, .showConnectionFailed r]
    { events := events ++ dispatchEvents ++ settleEvents, err := none }

/-! ## Theorems -/

/-- C1: render-state setup (step 2) is invoked only after graphics-context
setup (step 1) resolved successfully; when step 1 fails, the trace is
exactly splash, clear-splash, fatal setup error — step 2 is never invoked
and no further lifecycle transition (ticking, connect, main menu) occurs. -/
theorem c1_setup_step_ordering (launchHost : Option String)
    (step1 step2 : StepResult) (reason : String) :
    beginSetup launchHost (.fail reason) step2 =
      [.setSplashScreen, .popAllScreens,
       .showErrorPopup "setup" "Unable to create the graphics context" reason] ∧
    (LifeEvent.renderStateSetupInvoked ∈ beginSetup launchHost step1 step2 ↔
      step1 = .ok) := by
  constructor
  · rfl
  · cases step1 <;> simp [beginSetup, setupFailed, setupSucceeded]

/-- C2 counterexample: with a bound target holding a tool, a player-move
command carrying two actions yields exactly one tool-use invocation, not
two, refuting one invocation per action. -/
theorem c2_counterexample :
    (toolUses (executeCommand
        ⟨some ⟨⟨0, 0, 0, 1⟩, some ⟨[]⟩⟩, ⟨0, 0, 0, 1⟩⟩
        (.playerMove ⟨1, 0, 0, 0⟩ [0, 1]))).length = 1 ∧
    ¬ (toolUses (executeCommand
        ⟨some ⟨⟨0, 0, 0, 1⟩, some ⟨[]⟩⟩, ⟨0, 0, 0, 1⟩⟩
        (.playerMove ⟨1, 0, 0, 0⟩ [0, 1]))).length = 2 := by
  decide

/-- C2 amended: when the bound target holds a tool, executing a player-move
command invokes the tool use-operation exactly once per command — one
invocation regardless of the length of the action list (even when it is
empty), receiving the command itself as context. -/
theorem c2_tool_use_once_per_command (rotation q scratch : Quat)
    (uses : List Command) (actions : List Action) :
    executeCommand ⟨some ⟨rotation, some ⟨uses⟩⟩, scratch⟩
        (.playerMove q actions) =
      ⟨some ⟨q, some ⟨uses ++ [.playerMove q actions]⟩⟩, q⟩ := by
  rfl

/-- C3: for every address whose parsed scheme, host, or port component is
empty, the connect deferred is rejected with the InvalidAddress reason and
neither the remote nor the local connector is ever invoked. -/
theorem c3_invalid_address_rejected (address : String)
    (connector : ConnectorOutcome)
    (h : googUriScheme address = "" ∨ googUriDomain address = "" ∨
      googUriPort address = "") :
    NetEvent.deferredErrback (invalidAddressMessage address) ∈
      (connectToHost address connector).events ∧
    (∀ e, NetEvent.invokeRemoteConnector e ∉
      (connectToHost address connector).events) ∧
    NetEvent.invokeLocalConnector ∉ (connectToHost address connector).events := by
  have hv : (googUriScheme address != "" &&
      googUriDomain address != "" && googUriPort address != "") = false := by
    rcases h with h | h | h <;> simp [h]
  simp [connectToHost, userInfoPreparation, hv]

/-- C3 witness: the address "ws://" has an empty host component, is rejected
with the InvalidAddress reason, and invokes no connector. -/
theorem c3_invalid_address_rejected_witness :
    NetEvent.deferredErrback (invalidAddressMessage "ws://") ∈
      (connectToHost "ws://" .success).events ∧
    (∀ e, NetEvent.invokeRemoteConnector e ∉
      (connectToHost "ws://" .success).events) ∧
    NetEvent.invokeLocalConnector ∉ (connectToHost "ws://" .success).events :=
  c3_invalid_address_rejected "ws://" .success (Or.inr (Or.inl (by decide)))

/-- C4: evaluation of the code at a valid remote address.  The address
parses as scheme ws, host host.example, port 80, yet the emitted trace is
only the connecting dialog: the unbound identifier `settings` throws a
ReferenceError before the scheme switch, so no connector is ever
dispatched. -/
theorem c4_dispatch_unreachable :
    googUriScheme "ws://host.example:80" = "ws" ∧
    googUriDomain "ws://host.example:80" = "host.example" ∧
    googUriPort "ws://host.example:80" = "80" ∧
    (connectToHost "ws://host.example:80" .success).events =
      [.showConnectingDialog "ws://host.example:80"] ∧
    (connectToHost "ws://host.example:80" .success).err =
      some (.referenceError "settings") := by
  decide

/-- C5: command execution never raises and degrades to a no-op: with no
bound target, executing any command returns the state unchanged (no
mutation, and the embedding is total, so no error); with a bound target
holding no tool, a player-move command still applies its orientation while
performing zero tool invocations. -/
theorem c5_noop_contract :
    (∀ (s : SimState) (c : Command), s.target = none → executeCommand s c = s) ∧
    (∀ (rotation q scratch : Quat) (actions : List Action),
      executeCommand ⟨some ⟨rotation, none⟩, scratch⟩ (.playerMove q actions) =
        ⟨some ⟨q, none⟩, q⟩) := by
  constructor
  · intro s c h
    cases s with
    | mk target scratch => cases target with
      | none => cases c <;> rfl
      | some t => exact absurd h (by simp)
  · intro rotation q scratch actions
    rfl

/-- C5 witness: concrete instances of both no-op branches. -/
theorem c5_noop_contract_witness :
    executeCommand ⟨none, ⟨0, 0, 0, 1⟩⟩ (.playerMove ⟨1, 0, 0, 0⟩ [0]) =
      ⟨none, ⟨0, 0, 0, 1⟩⟩ ∧
    executeCommand ⟨some ⟨⟨0, 0, 0, 1⟩, none⟩, ⟨0, 0, 0, 1⟩⟩
        (.playerMove ⟨1, 0, 0, 0⟩ [0]) =
      ⟨some ⟨⟨1, 0, 0, 0⟩, none⟩, ⟨1, 0, 0, 0⟩⟩ :=
  ⟨c5_noop_contract.1 ⟨none, ⟨0, 0, 0, 1⟩⟩ (.playerMove ⟨1, 0, 0, 0⟩ [0]) rfl,
   c5_noop_contract.2 ⟨0, 0, 0, 1⟩ ⟨1, 0, 0, 0⟩ ⟨0, 0, 0, 1⟩ [0]⟩

/-- C6: evaluation of the code at a connect attempt against a valid remote
address.  For both connector outcomes the connecting dialog is shown and
never canceled: the callbacks that would cancel it are registered after the
user-info statement, which throws a ReferenceError on the unbound
identifier `settings`, so control never reaches them. -/
theorem c6_indicator_never_canceled :
    (connectToHost "ws://host.example:80" (.failure "refused")).events =
      [.showConnectingDialog "ws://host.example:80"] ∧
    NetEvent.cancelConnectingDialog ∉
      (connectToHost "ws://host.example:80" (.failure "refused")).events ∧
    NetEvent.cancelConnectingDialog ∉
      (connectToHost "ws://host.example:80" .success).events ∧
    (connectToHost "ws://host.example:80" (.failure "refused")).err =
      some (.referenceError "settings") := by
  decide

/-- Helper for C7: the resulting target state of one command execution does
not depend on the incoming scratch-register contents. -/
theorem executeCommand_target_scratch_irrelevant (t : Option TargetState)
    (s1 s2 : Quat) (c : Command) :
    (executeCommand ⟨t, s1⟩ c).target = (executeCommand ⟨t, s2⟩ c).target := by
  cases t <;> cases c <;> rfl

/-- C7: command execution is deterministic.  Two runs of the same ordered
command sequence from the same starting entity state yield the same
resulting entity state; the class-level scratch register, the only state not
part of a fresh copy, cannot influence the result. -/
theorem c7_command_determinism (target : Option TargetState)
    (scratch1 scratch2 : Quat) (commands : List Command) :
    (executeCommands ⟨target, scratch1⟩ commands).target =
      (executeCommands ⟨target, scratch2⟩ commands).target := by
  induction commands generalizing target scratch1 scratch2 with
  | nil => rfl
  | cons c cs ih =>
    show (executeCommands (executeCommand ⟨target, scratch1⟩ c) cs).target =
      (executeCommands (executeCommand ⟨target, scratch2⟩ c) cs).target
    have h := executeCommand_target_scratch_irrelevant target scratch1 scratch2 c
    calc (executeCommands (executeCommand ⟨target, scratch1⟩ c) cs).target
        = (executeCommands ⟨(executeCommand ⟨target, scratch1⟩ c).target,
            (executeCommand ⟨target, scratch1⟩ c).scratch⟩ cs).target := rfl
      _ = (executeCommands ⟨(executeCommand ⟨target, scratch2⟩ c).target,
            (executeCommand ⟨target, scratch2⟩ c).scratch⟩ cs).target := by
          rw [h]
          exact ih (executeCommand ⟨target, scratch2⟩ c).target
            (executeCommand ⟨target, scratch1⟩ c).scratch
            (executeCommand ⟨target, scratch2⟩ c).scratch
      _ = (executeCommands (executeCommand ⟨target, scratch2⟩ c) cs).target := rfl

/-- C8: evaluation of the settings-popup completion callback.  For every
game state and every dialog result — including the save outcome — the
callback throws a ReferenceError on the unbound identifier `buttonId`, so
the settings are never re-applied and the post-popup resume logic never
runs. -/
theorem c8_settings_callback_throws (g : GameState) (result : String) :
    settingsPopupCallback g result = (g, some (.referenceError "buttonId")) :=
  rfl

/-- C9: the in-game flag is unchanged by toggling fullscreen and by the
pre-popup and post-popup handlers, for every game state. -/
theorem c9_in_game_flag_invariant (g : GameState) :
    isInGame (toggleFullscreen g) = isInGame g ∧
    isInGame (prePopup g) = isInGame g ∧
    isInGame (postPopup g) = isInGame g := by
  obtain ⟨inG, fs, sens0, mlf, ml, msl, ie, mm0, cp, st⟩ := g
  obtain ⟨sens, mlock, mmut, sfx, name⟩ := st
  refine ⟨?_, ?_, ?_⟩ <;>
    cases sfx <;> cases inG <;> cases fs <;> cases msl <;> cases mlock <;> rfl

/-- C10: every call to connectToHost, for every address and every connector
outcome, aborts with a ReferenceError on the bare identifier `settings`
(which is bound nowhere in the function scope; the stored settings live in
the instance field), so the sanitized display name is never derived from the
stored user settings. -/
theorem c10_unbound_settings_reference (address : String)
    (connector : ConnectorOutcome) :
    (connectToHost address connector).err =
      some (.referenceError "settings") := by
  simp [connectToHost, userInfoPreparation]

end Blk
